import Mathlib

/-!
Verification of the agent tool-execution core of gigmoney-guru.

This file is a shallow embedding, in Lean 4, of the parts of the
repository that the specification's testable properties talk about:

* `backend/app/agents/tools.py` — the `ToolExecutor` class: session
  state, the tool-call log, and the eighteen tool handlers;
* `backend/app/agents/react_agent.py` — the `ReActAgent.run` loop;
* `backend/app/agents/enhanced_react_agent.py` — the debate phase of
  the enhanced agent (`_run_debate`, `_get_advisor_perspective`,
  `_synthesize_debate`) and how its result is applied to the state.

Modelling conventions:

* Python numbers (floats/ints used as money amounts) are modelled as
  `ℚ`; Python `round` (banker's rounding) is `pyRound`, `int(...)`
  truncation is `pyInt`.
* A Python dict used as a map is an association list with unique keys;
  `dGet m k d` is `m.get(k, d)` and `dSet` is item assignment
  (replace-in-place or append, preserving insertion order).
* `args.get("field")` is an `Option` field of the `Args` structure;
  `args.get("field", dflt)` is `(·.field).getD dflt`.
* Wall-clock reads (`datetime.now()`) are an ambient `now : ℕ`
  parameter; dates inside records are day numbers (`ℤ`), so a
  `timedelta.days` of two dates is plain subtraction.
* Calls into MongoDB (beanie) are an explicit `DbEnv` oracle recording
  whether each kind of call succeeds, finds nothing, or raises.
* The LLM is an oracle: a function from the iteration index to a
  response (tool calls, a plain message, or an exception).
* Purely presentational strings (Hinglish recommendation texts, uuid
  hex, isoformat timestamps inside result payloads) are elided when no
  other code reads them; every field whose value feeds any computation
  or any claim is kept.
-/

namespace GMG

/-- Python numbers (ints and floats) as used for money amounts. -/
abbrev Amount := ℚ

/-! ### Python dict operations (association lists with unique keys) -/

/-- `m.get(k, d)` on a Python dict. -/
def dGet [DecidableEq κ] (m : List (κ × Amount)) (k : κ) (d : Amount) : Amount :=
  match m with
  | [] => d
  | (k', v) :: t => if k' = k then v else dGet t k d

/-- `k in m` on a Python dict. -/
def dHas [DecidableEq κ] (m : List (κ × Amount)) (k : κ) : Bool :=
  match m with
  | [] => false
  | (k', _) :: t => if k' = k then true else dHas t k

/-- `m[k] = v` on a Python dict: replace in place, else append (insertion order). -/
def dSet [DecidableEq κ] (m : List (κ × Amount)) (k : κ) (v : Amount) :
    List (κ × Amount) :=
  match m with
  | [] => [(k, v)]
  | (k', v') :: t => if k' = k then (k, v) :: t else (k', v') :: dSet t k v

/-- `sum(m.values())` on a Python dict. -/
def dSum [DecidableEq κ] (m : List (κ × Amount)) : Amount :=
  (m.map (·.2)).sum

/-! ### Python numeric helpers -/

/-- Python `round(q)`: round half to even (banker's rounding). -/
def pyRound (q : ℚ) : ℤ :=
  let f := ⌊q⌋
  let r := q - f
  if r < 1/2 then f else if 1/2 < r then f + 1 else if f % 2 = 0 then f else f + 1

/-- Python `round(q, 1)`. -/
def pyRound1 (q : ℚ) : ℚ := (pyRound (q * 10) : ℚ) / 10

/-- Python `round(q, 2)`. -/
def pyRound2 (q : ℚ) : ℚ := (pyRound (q * 100) : ℚ) / 100

/-- Python `int(q)`: truncation toward zero. -/
def pyInt (q : ℚ) : ℤ := if 0 ≤ q then ⌊q⌋ else ⌈q⌉

/-- Python truthiness of an optional string (`None` and `""` are falsy). -/
def truthyStr : Option String → Bool
  | none => false
  | some s => s ≠ ""

/-! ### Data model (the Session State dict and the record shapes inside it) -/

/-- The `date` field of an expense record: a parsed datetime (as a day
number), a missing value (`None`), or an unparseable string (the code
`continue`s past those). -/
inductive ExpDate where
  | dt (d : ℤ)
  | missing
  | bad
deriving DecidableEq, Repr

/-- An entry of `state["expense_history"]`. -/
structure Expense where
  category : Option String := none
  amount : Option Amount := none
  date : ExpDate := .missing
deriving DecidableEq, Repr

/-- An entry of `state["goals"]`; `target_date` is the parsed date as a
day number, `none` when absent or unparseable. -/
structure Goal where
  name : Option String := none
  target_amount : Option Amount := none
  current_amount : Option Amount := none
  target_date : Option ℤ := none
deriving DecidableEq, Repr

/-- An entry of `state["obligations"]`. -/
structure Obligation where
  name : Option String := none
  amount : Option Amount := none
  due_day : Option ℤ := none
  bucket_name : Option String := none
deriving DecidableEq, Repr

/-- An entry of `state["obligation_risks"]`. -/
structure ObligationRisk where
  obligation_name : Option String := none
  risk_level : Option String := none
  shortfall_amount : Option Amount := none
  days_until_due : Option ℤ := none
deriving DecidableEq, Repr

/-- `state["income_patterns"]`. -/
structure IncomePatterns where
  weekday_average : Option Amount := none
  weekend_average : Option Amount := none
  trend_direction : Option String := none
deriving DecidableEq, Repr

/-- An entry of `state["income_history"]` (treated opaquely by the tools). -/
structure IncomeEntry where
  amount : Option Amount := none
  date : ExpDate := .missing
deriving DecidableEq, Repr

/-- An entry of `state["messages"]` (`timestamp` is absent for the copies
that `_create_alert` pushes). -/
structure Message where
  content : String
  message_type : String
  priority : ℤ
  timestamp : Option ℕ := none
deriving DecidableEq, Repr

/-- An entry of `state["allocations_made"]`. -/
structure AllocationEntry where
  bucket : Option String
  amount : Amount
  reason : String
deriving DecidableEq, Repr

/-- `state["advance_proposal"]` (the formatted `repayment_date` string is elided). -/
structure AdvanceProposal where
  needed : Bool
  principal : Amount
  fee : Amount
  total_repayable : Amount
  purpose : String
  repayment_days : ℤ
deriving DecidableEq, Repr

/-- A decision record as built by `_save_decision` (`dtype` embeds the
Python key `"type"`); `persisted` is `none` when the key was never set
(no `user_id`, so neither the insert nor the except branch ran). -/
structure DecisionRecord where
  dtype : Option String := none
  value : Option String := none
  reasoning : Option String := none
  impact : Amount := 0
  timestamp : ℕ := 0
  persisted : Option Bool := none
deriving DecidableEq, Repr

/-- An entry of `state["alerts"]` (`atype` embeds the Python key `"type"`). -/
structure Alert where
  id : String
  atype : String
  title : String
  message : String
  action_url : Option String
  created_at : ℕ
  expires_at : ℤ
  read : Bool
deriving DecidableEq, Repr

/-- An entry of `state["bucket_changes"]`. -/
structure BucketChange where
  bucket : Option String
  change : Amount
  new_balance : Amount
  reason : String
  persisted : Bool
  timestamp : ℕ
deriving DecidableEq, Repr

/-- An `AgentDecision` document as returned by the decision store. -/
structure PastDecision where
  decision_type : String
  decision_value : String
  agent_name : String
  created_at : Option ℕ
deriving DecidableEq, Repr

/-- `state["bucket_balances"]`: keys are whatever `args.get("bucket_name")`
returned, so `None` is a possible key. -/
abbrev BucketMap := List (Option String × Amount)

/-- One advisor's parsed JSON perspective in the debate phase, after the
caller tags it with `perspective["advisor"] = name`. -/
structure Perspective where
  agreement_level : Option Amount := none
  support_points : List String := []
  concerns : List String := []
  alternative_suggestion : Option String := none
  advisor : Option String := none
deriving DecidableEq, Repr

/-- The synthesis record produced by the debate phase
(`enhanced_react_agent._synthesize_debate`): parsed oracle JSON, so every
field the code reads is optional.  `rejected_concerns` and
`incorporated_from` are never read back and are elided. -/
structure SynthesisJson where
  final_recommendation : Option String := none
  confidence : Option Amount := none
  key_insight : Option String := none
  individual_perspectives : List Perspective := []
deriving DecidableEq, Repr

/-- The `arguments` dict handed to `ToolExecutor.execute`: every field the
handlers read via `args.get(...)`, `none` when the key is absent. -/
structure Args where
  bucket_name : Option String := none
  amount : Option Amount := none
  reason : Option String := none
  days_ahead : Option ℤ := none
  days : Option ℤ := none
  obligation_name : Option String := none
  purpose : Option String := none
  repayment_days : Option ℤ := none
  message : Option String := none
  message_type : Option String := none
  priority : Option ℤ := none
  score : Option ℤ := none
  level : Option String := none
  reasons : Option (List String) := none
  safe_to_spend : Option Amount := none
  key_insight : Option String := none
  recommended_action : Option String := none
  confidence_score : Option Amount := none
  decision_type : Option String := none
  decision_value : Option String := none
  reasoning : Option String := none
  impact_amount : Option Amount := none
  alert_type : Option String := none
  title : Option String := none
  action_url : Option String := none
  expires_hours : Option ℤ := none
  category : Option String := none
  comparison_days : Option ℤ := none
  goal_name : Option String := none
  scenario_type : Option String := none
deriving DecidableEq, Repr

/-- One entry of `ToolExecutor.tool_calls_log`. -/
structure LogEntry where
  tool : String
  arguments : Args
  timestamp : ℕ
  sequence : ℕ
deriving DecidableEq, Repr

/-- The session state: the single mutable dict shared by reference across a
run.  Absent keys are `none`/`[]`/`false` (every read in the source goes
through `.get` with exactly these defaults, and `"x" not in state` guards
initialize-to-empty writes, so absent and empty are indistinguishable). -/
structure SessionState where
  bucket_balances : BucketMap := []
  obligations : List Obligation := []
  obligation_risks : List ObligationRisk := []
  income_history : List IncomeEntry := []
  income_patterns : IncomePatterns := {}
  expense_history : List Expense := []
  goals : List Goal := []
  today_income : Option Amount := none
  past_decisions : List DecisionRecord := []
  allocations_made : List AllocationEntry := []
  advance_proposal : Option AdvanceProposal := none
  messages : List Message := []
  alerts : List Alert := []
  decisions_made : List DecisionRecord := []
  bucket_changes : List BucketChange := []
  risk_score : Option ℤ := none
  risk_level : Option String := none
  risk_reasons : List String := []
  safe_to_spend : Option Amount := none
  key_insight : Option String := none
  recommended_action : Option String := none
  confidence_score : Option Amount := none
  analysis_complete : Bool := false
  tools_used : Option ℕ := none
  agent_error : Option String := none
  agent_final_message : Option String := none
  tool_calls_log : List LogEntry := []
  react_iterations : ℕ := 0
  total_tool_calls : ℕ := 0
  reasoning_chain : List (ℕ × String) := []
  debate_result : Option SynthesisJson := none
  plan_revisions : Option ℕ := none
deriving DecidableEq, Repr

/-- Outcome of the `Bucket.find_one` / `bucket.save()` sequence inside
`_update_bucket_balance_persistent`'s `try` block. -/
inductive PersistOutcome where
  | found
  | notFound
  | raised
deriving DecidableEq, Repr

/-- Outcomes of the persistence collaborator's calls during one tool
execution, plus the uuid drawn for `_create_alert`. -/
structure DbEnv where
  persistBucket : PersistOutcome := .notFound
  pastDecisions : Option (List PastDecision) := none
  saveDecisionOk : Bool := false
  uuid : String := ""
deriving DecidableEq, Repr

/-! ### Tool result objects

One constructor per literal result dict in `tools.py`; the field names
follow the dict keys (`atype`/`dtype` embed the key `"type"`). -/

/-- One row of `_get_upcoming_obligations`'s result. -/
structure ObOut where
  name : Option String
  amount : Option Amount
  due_day : Option ℤ
  bucket : Option String
  risk : Option String
deriving DecidableEq, Repr

/-- One row of `_calculate_shortfall`'s result. -/
structure ShortfallOut where
  obligation : Option String
  shortfall : Amount
  days_until_due : Option ℤ
  risk_level : Option String
deriving DecidableEq, Repr

/-- One row of `_get_goals_progress`'s result. -/
structure GoalOut where
  name : Option String
  target : Option Amount
  current : Option Amount
  progress : Amount
  target_date : Option ℤ
deriving DecidableEq, Repr

/-- One anomaly row of `_analyze_spending_pattern`'s result. -/
structure Anomaly where
  category : String
  current : Amount
  previous : Amount
  increase_pct : ℤ
deriving DecidableEq, Repr

/-- One trajectory row of `_calculate_goal_trajectory`'s result (the
Hinglish `recommendation` string is elided). -/
structure Trajectory where
  name : Option String
  target : Amount
  current : Amount
  remaining : Amount
  progress_percent : Amount
  days_left : ℤ
  daily_savings_needed : ℤ
  weekly_savings_needed : ℤ
  on_track : Bool
deriving DecidableEq, Repr

/-- One row of `_get_past_decisions`'s database-backed result. -/
structure PastOut where
  dtype : String
  value : String
  agent : String
  date : Option ℕ
deriving DecidableEq, Repr

/-- The result object a tool handler returns: one constructor per
returned dict shape in `tools.py`.  Constructors whose source dict has
an `"error"` key: `completeRefused`, `insightRefused`, `scenarioUnknown`,
`unknownTool`. -/
inductive ToolResult where
  | bucketBalances (buckets : BucketMap) (total : Amount)
  | upcomingObligations (obligations : List ObOut) (total_monthly : Amount)
  | incomeHistory (recent_income : List IncomeEntry)
      (weekday_average weekend_average : Amount) (trend : String)
      (today_income : Amount)
  | expenseHistory (recent_expenses : List Expense)
      (by_category : List (String × Amount)) (total : Amount)
  | allocated (success : Bool) (bucket : Option String)
      (new_balance allocated : Amount)
  | shortfallInfo (has_shortfall : Bool) (total_shortfall : Amount)
      (shortfalls : List ShortfallOut)
  | advance (p : AdvanceProposal)
  | goalsProgress (goals : List GoalOut)
  | messageSent (sent : Bool) (message : String)
  | riskSet (score : ℤ) (level : String)
  | completeRefused (error : String) (tools_called : ℕ) (suggestion : String)
  | insightRefused (error : String) (exampleText : String)
  | completeOk (safe_to_spend : Amount) (insight : String) (action : String)
      (confidence : Amount) (tools_used : ℕ)
  | pastFromDb (decisions : List PastOut) (count : ℕ) (memory_active : Bool)
  | pastFromSession (decisions : List DecisionRecord) (count : ℕ)
      (memory_active : Bool)
  | decisionSaved (saved : Bool) (decision : DecisionRecord)
  | alertCreated (created : Bool) (alert_id : String) (atype : String)
      (will_expire : ℤ)
  | spendingPattern (period_days : ℤ) (current_spend previous_spend : Amount)
      (change_percent : Amount) (trend : String)
      (by_category : List (String × Amount)) (anomalies : List Anomaly)
  | goalTrajectory (goals_analyzed : ℕ) (trajectories : List Trajectory)
      (all_on_track : Bool)
  | scenarioExtraIncome (amount current_balance projected_balance : Amount)
      (buffer_days_gained : Amount)
  | scenarioUnexpectedExpense (amount current_balance projected_balance : Amount)
      (can_cover : Bool) (shortfall : Amount)
  | scenarioSkipWork (days : ℤ) (income_loss : ℤ) (current_balance : Amount)
      (projected_balance : ℤ) (affordable : Bool)
  | scenarioAdvanceRepayment (repayment_amount current_balance
      after_repayment : Amount) (safe_to_repay : Bool)
  | persistentUpdate (success : Bool) (bucket : Option String)
      (previous_balance change new_balance : Amount) (persisted_to_db : Bool)
      (reason : String)
  | scenarioUnknown (error : String)
  | unknownTool (error : String)
deriving DecidableEq, Repr

/-- Whether the result dict carries an `"error"` key. -/
def ToolResult.hasErrorField : ToolResult → Bool
  | .completeRefused .. => true
  | .insightRefused .. => true
  | .scenarioUnknown _ => true
  | .unknownTool _ => true
  | _ => false

/-- The `tools_called` field of a result, when present. -/
def ToolResult.toolsCalledField : ToolResult → Option ℕ
  | .completeRefused _ n _ => some n
  | _ => none

/-- The `buckets` field of a result, when present. -/
def ToolResult.bucketsField : ToolResult → Option BucketMap
  | .bucketBalances b _ => some b
  | _ => none

/-- Whether `result.get("complete")` is truthy. -/
def ToolResult.isComplete : ToolResult → Bool
  | .completeOk .. => true
  | _ => false

/-! ### Tool handlers (`ToolExecutor._<name>` methods)

Each handler is a function of the arguments dict and the session state
(plus, where the source body reads them, the post-increment call count
`self.tools_called_count`, `self.user_id`, the db outcomes, the wall
clock `now : ℕ` and the current day number `today : ℤ`), returning the
result object and the updated session state. -/

/-- Python `l[-n:]`. -/
def lastN (n : ℕ) (l : List α) : List α := l.drop (l.length - n)

/-- `ToolExecutor._get_bucket_balances` (the `details` rows re-list the
`buckets` pairs verbatim and are elided). -/
def get_bucket_balances (_args : Args) (s : SessionState) :
    ToolResult × SessionState :=
  (.bucketBalances s.bucket_balances (dSum s.bucket_balances), s)

/-- `ToolExecutor._get_upcoming_obligations`. -/
def get_upcoming_obligations (_args : Args) (s : SessionState) :
    ToolResult × SessionState :=
  let rows := s.obligations.map fun o =>
    { name := o.name, amount := o.amount, due_day := o.due_day,
      bucket := o.bucket_name,
      risk :=
        match s.obligation_risks.find? (fun r => decide (r.obligation_name = o.name)) with
        | some r => r.risk_level
        | none => some "low" : ObOut }
  (.upcomingObligations rows ((s.obligations.map (·.amount.getD 0)).sum), s)

/-- `ToolExecutor._get_income_history`. -/
def get_income_history (_args : Args) (s : SessionState) :
    ToolResult × SessionState :=
  (.incomeHistory (lastN 10 s.income_history)
    (s.income_patterns.weekday_average.getD 0)
    (s.income_patterns.weekend_average.getD 0)
    (s.income_patterns.trend_direction.getD "flat")
    (s.today_income.getD 0), s)

/-- The `by_category` grouping loop of `_get_expense_history`. -/
def groupByCategory (hist : List Expense) : List (String × Amount) :=
  hist.foldl (fun m e =>
    let cat := e.category.getD "other"
    dSet m cat (dGet m cat 0 + e.amount.getD 0)) []

/-- `ToolExecutor._get_expense_history`. -/
def get_expense_history (_args : Args) (s : SessionState) :
    ToolResult × SessionState :=
  let by_category := groupByCategory s.expense_history
  (.expenseHistory (lastN 10 s.expense_history) by_category (dSum by_category), s)

/-- `ToolExecutor._allocate_to_bucket`. -/
def allocate_to_bucket (args : Args) (s : SessionState) :
    ToolResult × SessionState :=
  let bucket_name := args.bucket_name
  let amount := args.amount.getD 0
  let reason := args.reason.getD ""
  let current := dGet s.bucket_balances bucket_name 0
  let s := { s with bucket_balances := dSet s.bucket_balances bucket_name (current + amount) }
  let s := { s with allocations_made :=
    s.allocations_made ++ [⟨bucket_name, amount, reason⟩] }
  (.allocated true bucket_name (current + amount) amount, s)

/-- The accumulation loop of `_calculate_shortfall`. -/
def shortfallScan (risks : List ObligationRisk) : Amount × List ShortfallOut :=
  risks.foldl (fun (acc : Amount × List ShortfallOut) r =>
    let shortfall := r.shortfall_amount.getD 0
    if shortfall > 0 then
      (acc.1 + shortfall,
       acc.2 ++ [⟨r.obligation_name, shortfall, r.days_until_due, r.risk_level⟩])
    else acc) (0, [])

/-- `ToolExecutor._calculate_shortfall`. -/
def calculate_shortfall (_args : Args) (s : SessionState) :
    ToolResult × SessionState :=
  let (total_shortfall, shortfalls) := shortfallScan s.obligation_risks
  (.shortfallInfo (decide (total_shortfall > 0)) total_shortfall shortfalls, s)

/-- `ToolExecutor._suggest_advance`. -/
def suggest_advance (args : Args) (s : SessionState) :
    ToolResult × SessionState :=
  let amount := args.amount.getD 0
  let purpose := args.purpose.getD ""
  let repayment_days := args.repayment_days.getD 7
  let fee_rate := (2/100 : ℚ) * ((repayment_days : ℚ) / 7)
  let fee := amount * fee_rate
  let proposal : AdvanceProposal :=
    { needed := true, principal := amount, fee := pyRound2 fee,
      total_repayable := pyRound2 (amount + fee), purpose := purpose,
      repayment_days := repayment_days }
  (.advance proposal, { s with advance_proposal := some proposal })

/-- `ToolExecutor._get_goals_progress`. -/
def get_goals_progress (_args : Args) (s : SessionState) :
    ToolResult × SessionState :=
  (.goalsProgress (s.goals.map fun g =>
    { name := g.name, target := g.target_amount, current := g.current_amount,
      progress := pyRound1 (g.current_amount.getD 0 / max (g.target_amount.getD 1) 1 * 100),
      target_date := g.target_date }), s)

/-- `ToolExecutor._send_message_to_user`. -/
def send_message_to_user (now : ℕ) (args : Args) (s : SessionState) :
    ToolResult × SessionState :=
  let message := args.message.getD ""
  let message_type := args.message_type.getD "info"
  let priority := args.priority.getD 3
  (.messageSent true message,
   { s with messages := s.messages ++
       [{ content := message, message_type := message_type,
          priority := priority, timestamp := some now }] })

/-- `ToolExecutor._set_risk_score`. -/
def set_risk_score (args : Args) (s : SessionState) :
    ToolResult × SessionState :=
  let score := args.score.getD 0
  let level := args.level.getD "low"
  let reasons := args.reasons.getD []
  (.riskSet score level,
   { s with risk_score := some score, risk_level := some level,
            risk_reasons := reasons })

/-- `ToolExecutor._complete_analysis`; `count` is `self.tools_called_count`
(already incremented for this very call by `execute`). -/
def complete_analysis (count : ℕ) (args : Args) (s : SessionState) :
    ToolResult × SessionState :=
  if count < 5 then
    (.completeRefused
      ("NOT ENOUGH ANALYSIS! You have only called " ++ toString count ++
       " tools. Call at least 5 tools (get balances, obligations, income, expenses, and more) before completing. Keep analyzing!")
      count
      "Call get_bucket_balances, get_upcoming_obligations, get_income_history, get_expense_history, analyze_spending_pattern, calculate_shortfall first",
     s)
  else
    let safe_to_spend := args.safe_to_spend.getD 0
    let key_insight := args.key_insight.getD ""
    let recommended_action := args.recommended_action.getD ""
    let confidence_score := args.confidence_score.getD 70
    if key_insight.length < 30 then
      (.insightRefused
        "Key insight is too short! Provide a detailed, actionable insight in Hinglish with specific numbers."
        "Aapka rent ka ₹8000 due hai 5 din mein, aur aapke paas sirf ₹6000 hai. Kal extra drive karke ₹2000 kama lo!",
       s)
    else
      (.completeOk safe_to_spend key_insight recommended_action confidence_score count,
       { s with safe_to_spend := some safe_to_spend,
                key_insight := some key_insight,
                recommended_action := some recommended_action,
                confidence_score := some confidence_score,
                analysis_complete := true,
                tools_used := some count })

/-- `ToolExecutor._get_past_decisions` (the `"note"` string on the
session-memory fallback is elided). -/
def get_past_decisions (env : DbEnv) (user_id : Option String) (_args : Args)
    (s : SessionState) : ToolResult × SessionState :=
  match user_id, env.pastDecisions with
  | some _, some docs =>
      (.pastFromDb (docs.map fun d =>
        { dtype := d.decision_type, value := d.decision_value,
          agent := d.agent_name, date := d.created_at }) docs.length true, s)
  | _, _ =>
      (.pastFromSession (lastN 10 s.past_decisions) s.past_decisions.length false, s)

/-- `ToolExecutor._save_decision`. -/
def save_decision (env : DbEnv) (now : ℕ) (user_id : Option String)
    (args : Args) (s : SessionState) : ToolResult × SessionState :=
  let record : DecisionRecord :=
    { dtype := args.decision_type, value := args.decision_value,
      reasoning := args.reasoning, impact := args.impact_amount.getD 0,
      timestamp := now,
      persisted := match user_id with
        | none => none
        | some _ => some env.saveDecisionOk }
  (.decisionSaved true record,
   { s with decisions_made := s.decisions_made ++ [record] })

/-- `ToolExecutor._create_alert` (one model tick stands for one hour in
`expires_at`). -/
def create_alert (env : DbEnv) (now : ℕ) (args : Args) (s : SessionState) :
    ToolResult × SessionState :=
  let alert_type := args.alert_type.getD "info"
  let title := args.title.getD ""
  let message := args.message.getD ""
  let expires_hours := args.expires_hours.getD 24
  let alert : Alert :=
    { id := env.uuid, atype := alert_type, title := title, message := message,
      action_url := args.action_url, created_at := now,
      expires_at := (now : ℤ) + expires_hours, read := false }
  let s := { s with alerts := s.alerts ++ [alert] }
  let s :=
    if alert_type = "urgent" ∨ alert_type = "warning" then
      { s with messages := s.messages ++
          [{ content := "⚠️ " ++ title ++ ": " ++ message,
             message_type := alert_type,
             priority := if alert_type = "urgent" then 1 else 2,
             timestamp := none }] }
    else s
  (.alertCreated true alert.id alert_type alert.expires_at, s)

/-- Accumulators of `_analyze_spending_pattern`'s history loop. -/
structure SpendAcc where
  current_total : Amount := 0
  current_by_cat : List (String × Amount) := []
  comparison_total : Amount := 0
  comparison_by_cat : List (String × Amount) := []
deriving DecidableEq, Repr

/-- Days-ago of one expense: `none` models the `continue` on an
unparseable date string, `999` models a missing date. -/
def expDaysAgo (today : ℤ) : ExpDate → Option ℤ
  | .bad => none
  | .missing => some 999
  | .dt d => some (today - d)

/-- One iteration of `_analyze_spending_pattern`'s history loop. -/
def spendStep (category : String) (comparison_days today : ℤ) (acc : SpendAcc)
    (e : Expense) : SpendAcc :=
  match expDaysAgo today e.date with
  | none => acc
  | some days_ago =>
    let cat := e.category.getD "other"
    let amount := e.amount.getD 0
    if category ≠ "all" ∧ cat ≠ category then acc
    else if days_ago < comparison_days then
      { acc with current_total := acc.current_total + amount,
                 current_by_cat :=
                   dSet acc.current_by_cat cat (dGet acc.current_by_cat cat 0 + amount) }
    else if days_ago < comparison_days * 2 then
      { acc with comparison_total := acc.comparison_total + amount,
                 comparison_by_cat :=
                   dSet acc.comparison_by_cat cat (dGet acc.comparison_by_cat cat 0 + amount) }
    else acc

/-- The whole history loop of `_analyze_spending_pattern`. -/
def spendScan (category : String) (comparison_days today : ℤ)
    (hist : List Expense) : SpendAcc :=
  hist.foldl (spendStep category comparison_days today) {}

/-- The anomaly loop of `_analyze_spending_pattern`. -/
def spendAnomalies (acc : SpendAcc) : List Anomaly :=
  acc.current_by_cat.filterMap fun p =>
    let prev := dGet acc.comparison_by_cat p.1 0
    if prev > 0 ∧ p.2 > prev * (3/2) then
      some ⟨p.1, p.2, prev, pyRound ((p.2 - prev) / prev * 100)⟩
    else none

/-- `ToolExecutor._analyze_spending_pattern` (the Hinglish `insight`
string is elided). -/
def analyze_spending_pattern (today : ℤ) (args : Args) (s : SessionState) :
    ToolResult × SessionState :=
  let category := args.category.getD "all"
  let comparison_days := args.comparison_days.getD 7
  let acc := spendScan category comparison_days today s.expense_history
  let change_pct : Amount :=
    if acc.comparison_total > 0 then
      (acc.current_total - acc.comparison_total) / acc.comparison_total * 100
    else 0
  (.spendingPattern comparison_days acc.current_total acc.comparison_total
    (pyRound1 change_pct)
    (if change_pct > 10 then "up" else if change_pct < -10 then "down" else "stable")
    acc.current_by_cat (spendAnomalies acc), s)

/-- The `days_remaining` computed for one goal in
`_calculate_goal_trajectory` (default 30 when the target date is absent
or unparseable). -/
def daysRemaining (today : ℤ) (g : Goal) : ℤ :=
  match g.target_date with
  | some d => d - today
  | none => 30

/-- The `daily_needed` computed for one goal in
`_calculate_goal_trajectory`: `remaining / max(days_remaining, 1)`. -/
def requiredDailyRate (today : ℤ) (g : Goal) : Amount :=
  (g.target_amount.getD 0 - g.current_amount.getD 0) /
    ((max (daysRemaining today g) 1 : ℤ) : ℚ)

/-- One loop body of `_calculate_goal_trajectory`. -/
def goalTrajectoryOne (today : ℤ) (patterns : IncomePatterns) (g : Goal) :
    Trajectory :=
  let target := g.target_amount.getD 0
  let current := g.current_amount.getD 0
  let remaining := target - current
  let progress_pct : Amount := if target > 0 then current / target * 100 else 0
  let days_remaining := daysRemaining today g
  let daily_needed := requiredDailyRate today g
  let weekly_needed := daily_needed * 7
  let avg_daily_income := patterns.weekday_average.getD 500
  let achievable := daily_needed < avg_daily_income * (3/10)
  { name := g.name, target := target, current := current,
    remaining := remaining, progress_percent := pyRound1 progress_pct,
    days_left := days_remaining, daily_savings_needed := pyRound daily_needed,
    weekly_savings_needed := pyRound weekly_needed,
    on_track := decide achievable }

/-- `ToolExecutor._calculate_goal_trajectory`. -/
def calculate_goal_trajectory (today : ℤ) (args : Args) (s : SessionState) :
    ToolResult × SessionState :=
  let goal_name := args.goal_name.getD "all"
  let selected := s.goals.filter fun g =>
    decide ¬(goal_name ≠ "all" ∧ g.name ≠ some goal_name)
  let results := selected.map (goalTrajectoryOne today s.income_patterns)
  (.goalTrajectory results.length results (results.all (·.on_track)), s)

/-- `ToolExecutor._simulate_scenario` (the Hinglish `recommendation`
strings are elided). -/
def simulate_scenario (args : Args) (s : SessionState) :
    ToolResult × SessionState :=
  let scenario_type := args.scenario_type
  let amount := args.amount.getD 0
  let days := args.days.getD 7
  let total_balance := dSum s.bucket_balances
  let avg_daily := s.income_patterns.weekday_average.getD 500
  if scenario_type = some "extra_income" then
    (.scenarioExtraIncome amount total_balance (total_balance + amount)
      (pyRound1 (if avg_daily > 0 then amount / avg_daily else 0)), s)
  else if scenario_type = some "unexpected_expense" then
    (.scenarioUnexpectedExpense amount total_balance (total_balance - amount)
      (decide (total_balance - amount ≥ 0)) (max 0 (amount - total_balance)), s)
  else if scenario_type = some "skip_work" then
    let income_loss := avg_daily * (days : ℚ)
    (.scenarioSkipWork days (pyRound income_loss) total_balance
      (pyRound (total_balance - income_loss))
      (decide (total_balance - income_loss > 0)), s)
  else if scenario_type = some "advance_repayment" then
    (.scenarioAdvanceRepayment amount total_balance (total_balance - amount)
      (decide (total_balance - amount > avg_daily * 3)), s)
  else
    (.scenarioUnknown ("Unknown scenario type: " ++ scenario_type.getD "None"), s)

/-- `ToolExecutor._update_bucket_balance_persistent`. -/
def update_bucket_balance_persistent (env : DbEnv) (now : ℕ)
    (user_id : Option String) (args : Args) (s : SessionState) :
    ToolResult × SessionState :=
  let bucket_name := args.bucket_name
  let amount := args.amount.getD 0
  let reason := args.reason.getD ""
  let current := dGet s.bucket_balances bucket_name 0
  let new_balance := current + amount
  let s := { s with bucket_balances := dSet s.bucket_balances bucket_name new_balance }
  let persisted := user_id.isSome && decide (env.persistBucket = .found)
  let s := { s with bucket_changes := s.bucket_changes ++
    [{ bucket := bucket_name, change := amount, new_balance := new_balance,
       reason := reason, persisted := persisted, timestamp := now }] }
  (.persistentUpdate true bucket_name current amount new_balance persisted reason, s)

/-! ### The Tool Executor -/

/-- The `ToolExecutor` object (`tools.py`). -/
structure ToolExecutor where
  state : SessionState
  user_id : Option String := none
  run_id : String := ""
  tool_calls_log : List LogEntry := []
  tools_called_count : ℕ := 0
deriving DecidableEq, Repr

/-- `ToolExecutor.__init__(state, user_id)`; `run_id` stands for the
drawn uuid. -/
def ToolExecutor.init (state : SessionState) (user_id : Option String)
    (run_id : String) : ToolExecutor :=
  { state := state, user_id := user_id, run_id := run_id,
    tool_calls_log := [], tools_called_count := 0 }

/-- The keys of the `handlers` dict in `ToolExecutor.execute`. -/
def knownTools : List String :=
  ["get_bucket_balances", "get_upcoming_obligations", "get_income_history",
   "get_expense_history", "allocate_to_bucket", "calculate_shortfall",
   "suggest_advance", "get_goals_progress", "send_message_to_user",
   "set_risk_score", "complete_analysis", "get_past_decisions",
   "save_decision", "create_alert", "analyze_spending_pattern",
   "calculate_goal_trajectory", "simulate_scenario",
   "update_bucket_balance_persistent"]

/-- The `handlers.get(tool_name)` dispatch plus the unknown-name branch:
runs the selected handler against the session state and returns the
result object and the new state. -/
def dispatch (env : DbEnv) (now : ℕ) (today : ℤ) (count : ℕ)
    (user_id : Option String) (tool_name : String) (args : Args)
    (s : SessionState) : ToolResult × SessionState :=
  if tool_name = "get_bucket_balances" then get_bucket_balances args s
  else if tool_name = "get_upcoming_obligations" then get_upcoming_obligations args s
  else if tool_name = "get_income_history" then get_income_history args s
  else if tool_name = "get_expense_history" then get_expense_history args s
  else if tool_name = "allocate_to_bucket" then allocate_to_bucket args s
  else if tool_name = "calculate_shortfall" then calculate_shortfall args s
  else if tool_name = "suggest_advance" then suggest_advance args s
  else if tool_name = "get_goals_progress" then get_goals_progress args s
  else if tool_name = "send_message_to_user" then send_message_to_user now args s
  else if tool_name = "set_risk_score" then set_risk_score args s
  else if tool_name = "complete_analysis" then complete_analysis count args s
  else if tool_name = "get_past_decisions" then get_past_decisions env user_id args s
  else if tool_name = "save_decision" then save_decision env now user_id args s
  else if tool_name = "create_alert" then create_alert env now args s
  else if tool_name = "analyze_spending_pattern" then analyze_spending_pattern today args s
  else if tool_name = "calculate_goal_trajectory" then calculate_goal_trajectory today args s
  else if tool_name = "simulate_scenario" then simulate_scenario args s
  else if tool_name = "update_bucket_balance_persistent" then
    update_bucket_balance_persistent env now user_id args s
  else (.unknownTool ("Unknown tool: " ++ tool_name), s)

/-- `ToolExecutor.execute(tool_name, arguments)`: increment the call
counter, append the log entry, then dispatch. -/
def ToolExecutor.execute (env : DbEnv) (now : ℕ) (today : ℤ)
    (tool_name : String) (arguments : Args) (ex : ToolExecutor) :
    ToolResult × ToolExecutor :=
  let count := ex.tools_called_count + 1
  let ex' := { ex with
    tools_called_count := count,
    tool_calls_log := ex.tool_calls_log ++
      [({ tool := tool_name, arguments := arguments, timestamp := now,
          sequence := count } : LogEntry)] }
  let out := dispatch env now today count ex'.user_id tool_name arguments ex'.state
  (out.1, { ex' with state := out.2 })

/-! ### The ReAct control loop (`react_agent.ReActAgent.run`) -/

/-- One requested tool call inside an oracle response; `args = none`
models `json.loads(tool_call.function.arguments)` raising. -/
structure ToolCallReq where
  name : String
  args : Option Args
deriving DecidableEq, Repr

/-- One oracle turn: a chat completion with a (possibly empty) batch of
tool calls, or the API call raising. -/
inductive OracleResponse where
  | message (content : Option String) (tool_calls : List ToolCallReq)
  | failure (err : String)
deriving DecidableEq, Repr

/-- `ReActAgent.max_iterations`. -/
def reactMaxIterations : ℕ := 15

/-- `ReActAgent.min_tool_calls`. -/
def reactMinToolCalls : ℕ := 5

/-- The inner `for tool_call in message.tool_calls` loop: execute each
call sequentially; a malformed-arguments call aborts the batch with the
exception message (later caught by the iteration's `except`).  Returns
the executor, the number of calls executed, whether `complete_analysis`
accepted, and the exception if one was raised. -/
def execBatch (env : DbEnv) (now : ℕ) (today : ℤ) :
    List ToolCallReq → ToolExecutor → ℕ → Bool →
    ToolExecutor × ℕ × Bool × Option String
  | [], ex, executed, complete => (ex, executed, complete, none)
  | tc :: rest, ex, executed, complete =>
    match tc.args with
    | none => (ex, executed, complete, some "malformed tool arguments")
    | some args =>
      let out := ex.execute env now today tc.name args
      let complete' :=
        if tc.name = "complete_analysis" ∧ out.1.isComplete then true else complete
      execBatch env now today rest out.2 (executed + 1) complete'

/-- Loop-carried data of `ReActAgent.run`'s `while` loop. -/
structure LoopSt where
  ex : ToolExecutor
  iteration : ℕ
  tool_call_count : ℕ
  analysis_complete : Bool
  reasoning_chain : List (ℕ × String)
deriving DecidableEq, Repr

/-- The `while iteration < max_iterations and not analysis_complete`
loop of `ReActAgent.run`, by fuel (`fuel = max_iterations - iteration`,
so the guard `iteration < max_iterations` is `fuel > 0`).  A `failure`
oracle turn (or a malformed-arguments exception inside a batch) lands in
the `except` clause: it records `agent_error` on the state and breaks. -/
def reactLoop (oracle : ℕ → OracleResponse) (env : DbEnv) (now : ℕ)
    (today : ℤ) : ℕ → LoopSt → LoopSt
  | 0, st => st
  | fuel + 1, st =>
    if st.analysis_complete then st
    else
      let iteration := st.iteration + 1
      match oracle iteration with
      | .failure err =>
        { st with iteration := iteration,
                  ex := { st.ex with state := { st.ex.state with agent_error := some err } } }
      | .message content tool_calls =>
        if tool_calls.isEmpty then
          -- no tool calls: the agent is done thinking
          let chain := match content with
            | some c => if c = "" then st.reasoning_chain
                        else st.reasoning_chain ++ [(iteration, c.take 500)]
            | none => st.reasoning_chain
          let ex := match content with
            | some c => if c = "" then st.ex
                        else { st.ex with state := { st.ex.state with agent_final_message := some c } }
            | none => st.ex
          if ¬st.analysis_complete ∧ st.tool_call_count < reactMinToolCalls then
            reactLoop oracle env now today fuel
              { st with ex := ex, iteration := iteration, reasoning_chain := chain }
          else
            { st with ex := ex, iteration := iteration, reasoning_chain := chain,
                      analysis_complete := true }
        else
          let chain := match content with
            | some c => if c = "" then st.reasoning_chain
                        else st.reasoning_chain ++ [(iteration, c.take 500)]
            | none => st.reasoning_chain
          let out := execBatch env now today tool_calls st.ex st.tool_call_count
            st.analysis_complete
          match out.2.2.2 with
          | some err =>
            { st with iteration := iteration, reasoning_chain := chain,
                      tool_call_count := out.2.1, analysis_complete := out.2.2.1,
                      ex := { out.1 with state := { out.1.state with agent_error := some err } } }
          | none =>
            reactLoop oracle env now today fuel
              { ex := out.1, iteration := iteration, tool_call_count := out.2.1,
                analysis_complete := out.2.2.1, reasoning_chain := chain }

/-- `ReActAgent.run`: build the executor, run the loop, store the
execution metadata back into the state, and synthesize the fallback key
insight. -/
def reactRun (oracle : ℕ → OracleResponse) (env : DbEnv) (now : ℕ)
    (today : ℤ) (state : SessionState) (user_id : Option String)
    (run_id : String) : SessionState :=
  let st0 : LoopSt :=
    { ex := ToolExecutor.init state user_id run_id, iteration := 0,
      tool_call_count := 0, analysis_complete := false, reasoning_chain := [] }
  let st := reactLoop oracle env now today reactMaxIterations st0
  let s := st.ex.state
  let s := { s with tool_calls_log := st.ex.tool_calls_log,
                    react_iterations := st.iteration,
                    total_tool_calls := st.tool_call_count,
                    reasoning_chain := st.reasoning_chain }
  if ¬truthyStr s.key_insight ∧ st.tool_call_count > 0 then
    { s with key_insight := some "Analysis complete - aapka financial health check ho gaya hai." }
  else s

/-! ### The debate phase (`enhanced_react_agent.EnhancedReActAgent`) -/

/-- The three fixed advisor personas (`DEBATE_PERSPECTIVES`); only the
names are read back by the debate code. -/
def debatePerspectiveNames : List String :=
  ["Conservative Advisor", "Growth Advisor", "Practical Advisor"]

/-- `EnhancedReActAgent._get_advisor_perspective`: one oracle call whose
parsed JSON is returned, or the neutral fallback
`agreement_level = 70` when the call raises (`response = none`). -/
def getAdvisorPerspective (response : Option Perspective) : Perspective :=
  match response with
  | some p => p
  | none => { agreement_level := some 70, concerns := [], support_points := [] }

/-- `EnhancedReActAgent._synthesize_debate`: one oracle call whose parsed
JSON is returned, or the fallback that echoes the original
recommendation when the call raises (`response = none`). -/
def synthesizeDebate (original : String) (response : Option SynthesisJson) :
    SynthesisJson :=
  match response with
  | some j => j
  | none =>
    { final_recommendation := some original, confidence := some (6/10),
      key_insight := some original }

/-- `EnhancedReActAgent._run_debate`: collect the three advisor
perspectives (tagging each with its advisor name), then synthesize.
`advOracle`/`synthOracle` are the two kinds of debate oracle calls,
`none` modelling a raised exception. -/
def runDebate (advOracle : String → Option Perspective)
    (synthOracle : List Perspective → Option SynthesisJson)
    (recommendation : String) : SynthesisJson :=
  let perspectives := debatePerspectiveNames.map fun name =>
    { getAdvisorPerspective (advOracle name) with advisor := some name }
  let synthesis := synthesizeDebate recommendation (synthOracle perspectives)
  { synthesis with individual_perspectives := perspectives }

/-- Phase 3 of `EnhancedReActAgent.run`: when the execution phase
produced a truthy `proposed_recommendation`, run the debate and overwrite
the state's key insight, recommended action and confidence score from
the synthesized result. -/
def applyDebatePhase (advOracle : String → Option Perspective)
    (synthOracle : List Perspective → Option SynthesisJson)
    (proposed_recommendation : Option String) (state : SessionState) :
    SessionState :=
  match proposed_recommendation with
  | some r =>
    if r = "" then state
    else
      let debate_result := runDebate advOracle synthOracle r
      let state := { state with debate_result := some debate_result }
      match debate_result.final_recommendation with
      | some fr =>
        if fr = "" then state
        else
          { state with
            key_insight :=
              match debate_result.key_insight with
              | some k => some k
              | none => state.key_insight,
            recommended_action := some fr,
            confidence_score := some ((pyInt ((debate_result.confidence.getD (7/10)) * 100) : ℤ) : ℚ) }
      | none => state
  | none => state

/-! ### Derived definitions used to state the claims -/

/-- The `anomalies` field of a result, when present. -/
def ToolResult.anomaliesField : ToolResult → Option (List Anomaly)
  | .spendingPattern _ _ _ _ _ _ a => some a
  | _ => none

/-- The `trajectories` field of a result, when present. -/
def ToolResult.trajectoriesField : ToolResult → Option (List Trajectory)
  | .goalTrajectory _ t _ => some t
  | _ => none

/-- A sequence of `execute` invocations on the same executor. -/
def execSeq (env : DbEnv) (now : ℕ) (today : ℤ) :
    List (String × Args) → ToolExecutor → ToolExecutor
  | [], ex => ex
  | (n, a) :: rest, ex =>
    execSeq env now today rest (ex.execute env now today n a).2

/-- The log entries that a sequence of invocations should append when the
counter starts at `startCount`. -/
def expectedLog (now : ℕ) (startCount : ℕ) :
    List (String × Args) → List LogEntry
  | [] => []
  | (n, a) :: rest =>
    ⟨n, a, now, startCount + 1⟩ :: expectedLog now (startCount + 1) rest

/-- The keys of an association-list dict. -/
def dKeys [DecidableEq κ] (m : List (κ × Amount)) : List κ := m.map (·.1)

/-- Whether one expense lands in the current window of
`_analyze_spending_pattern` and contributes to category `c`. -/
def contributesCurrent (category : String) (comparison_days today : ℤ)
    (c : String) (e : Expense) : Bool :=
  match expDaysAgo today e.date with
  | none => false
  | some days_ago =>
    decide (¬(category ≠ "all" ∧ e.category.getD "other" ≠ category) ∧
      e.category.getD "other" = c ∧ days_ago < comparison_days)

/-- Whether one expense lands in the comparison window of
`_analyze_spending_pattern` and contributes to category `c`. -/
def contributesPrevious (category : String) (comparison_days today : ℤ)
    (c : String) (e : Expense) : Bool :=
  match expDaysAgo today e.date with
  | none => false
  | some days_ago =>
    decide (¬(category ≠ "all" ∧ e.category.getD "other" ≠ category) ∧
      e.category.getD "other" = c ∧ ¬days_ago < comparison_days ∧
      days_ago < comparison_days * 2)

/-- Current-period spend of category `c` over an expense history. -/
def currentSpend (category : String) (comparison_days today : ℤ) (c : String)
    (hist : List Expense) : Amount :=
  ((hist.filter (contributesCurrent category comparison_days today c)).map
    (fun e => e.amount.getD 0)).sum

/-- Prior-period spend of category `c` over an expense history. -/
def previousSpend (category : String) (comparison_days today : ℤ) (c : String)
    (hist : List Expense) : Amount :=
  ((hist.filter (contributesPrevious category comparison_days today c)).map
    (fun e => e.amount.getD 0)).sum

/-- The list `start, start+1, ..., start+n-1`. -/
def seqList (start : ℕ) : ℕ → List ℕ
  | 0 => []
  | n + 1 => start :: seqList (start + 1) n

/-! ## Theorems -/

/-! ### Dict lemmas -/

theorem dGet_dSet_self [DecidableEq κ] (m : List (κ × Amount)) (k : κ)
    (v d : Amount) : dGet (dSet m k v) k d = v := by
  induction m with
  | nil => simp [dSet, dGet]
  | cons p t ih =>
    rcases p with ⟨k', v'⟩
    by_cases h : k' = k
    · simp [dSet, h, dGet]
    · simp [dSet, h, dGet, ih]

theorem dGet_dSet_ne [DecidableEq κ] (m : List (κ × Amount)) (k c : κ)
    (v d : Amount) (hne : k ≠ c) : dGet (dSet m k v) c d = dGet m c d := by
  induction m with
  | nil => simp [dSet, dGet, hne]
  | cons p t ih =>
    rcases p with ⟨k', v'⟩
    simp only [dSet]
    by_cases h : k' = k
    · subst h
      simp only [if_pos rfl, dGet, hne]
      simp [hne]
    · simp only [if_neg h, dGet, ih]

theorem dHas_dSet [DecidableEq κ] (m : List (κ × Amount)) (k c : κ)
    (v : Amount) : dHas (dSet m k v) c = (decide (k = c) || dHas m c) := by
  induction m with
  | nil => simp [dSet, dHas]
  | cons p t ih =>
    rcases p with ⟨k', v'⟩
    simp only [dSet]
    by_cases h : k' = k
    · subst h
      by_cases h2 : k' = c
      · subst h2; simp [dHas]
      · simp [dHas, h2]
    · simp only [if_neg h, dHas]
      by_cases h2 : k' = c
      · subst h2; simp
      · simp [h2, ih]

theorem mem_dKeys_iff_dHas [DecidableEq κ] (m : List (κ × Amount)) (c : κ) :
    c ∈ dKeys m ↔ dHas m c = true := by
  induction m with
  | nil => simp [dKeys, dHas]
  | cons q t ih =>
    rcases q with ⟨q1, q2⟩
    simp only [dKeys, List.map_cons, List.mem_cons]
    by_cases hq : q1 = c
    · subst hq; simp [dHas]
    · simp only [dHas, if_neg hq]
      constructor
      · rintro (h | h)
        · exact absurd h.symm hq
        · exact ih.mp h
      · intro h
        exact Or.inr (ih.mpr h)

theorem dKeys_dSet_nodup [DecidableEq κ] (m : List (κ × Amount)) (k : κ)
    (v : Amount) (h : (dKeys m).Nodup) : (dKeys (dSet m k v)).Nodup := by
  induction m with
  | nil => simp [dSet, dKeys]
  | cons p t ih =>
    rcases p with ⟨k', v'⟩
    simp only [dKeys, List.map_cons, List.nodup_cons] at h
    simp only [dSet]
    by_cases hk : k' = k
    · subst hk
      rw [if_pos rfl]
      simp only [dKeys, List.map_cons, List.nodup_cons]
      exact h
    · simp only [if_neg hk, dKeys, List.map_cons, List.nodup_cons]
      refine ⟨?_, ih h.2⟩
      intro hmem
      have hhas : dHas (dSet t k v) k' = true :=
        (mem_dKeys_iff_dHas (dSet t k v) k').mp hmem
      rw [dHas_dSet] at hhas
      simp only [Bool.or_eq_true] at hhas
      rcases hhas with h1 | h2
      · exact hk (of_decide_eq_true h1).symm
      · exact h.1 ((mem_dKeys_iff_dHas t k').mpr h2)

theorem dGet_of_mem [DecidableEq κ] (m : List (κ × Amount)) (c : κ)
    (v d : Amount) (hnd : (dKeys m).Nodup) (hm : (c, v) ∈ m) :
    dGet m c d = v := by
  induction m with
  | nil => simp at hm
  | cons q t ih =>
    rcases q with ⟨q1, q2⟩
    simp only [dKeys, List.map_cons, List.nodup_cons] at hnd
    rcases List.mem_cons.mp hm with h1 | h2
    · rw [Prod.mk.injEq] at h1
      simp [dGet, h1.1, h1.2]
    · have hq : q1 ≠ c := by
        intro he
        subst he
        exact hnd.1 (List.mem_map_of_mem (fun x => x.1) h2)
      simp [dGet, hq, ih hnd.2 h2]

theorem mem_of_dHas [DecidableEq κ] (m : List (κ × Amount)) (c : κ)
    (d : Amount) (h : dHas m c = true) : (c, dGet m c d) ∈ m := by
  induction m with
  | nil => simp [dHas] at h
  | cons q t ih =>
    rcases q with ⟨q1, q2⟩
    by_cases hq : q1 = c
    · subst hq; simp [dGet]
    · simp only [dHas, hq, if_false] at h
      simp only [dGet, hq, if_false]
      exact List.mem_cons_of_mem _ (ih h)

/-! ### Log lemmas -/

theorem execute_log_step (env : DbEnv) (now : ℕ) (today : ℤ) (name : String)
    (args : Args) (ex : ToolExecutor) :
    (ex.execute env now today name args).2.tool_calls_log =
      ex.tool_calls_log ++ [⟨name, args, now, ex.tools_called_count + 1⟩]
    ∧ (ex.execute env now today name args).2.tools_called_count =
      ex.tools_called_count + 1 := by
  constructor <;> rfl

theorem execSeq_log (env : DbEnv) (now : ℕ) (today : ℤ)
    (calls : List (String × Args)) : ∀ ex : ToolExecutor,
    (execSeq env now today calls ex).tool_calls_log =
      ex.tool_calls_log ++ expectedLog now ex.tools_called_count calls
    ∧ (execSeq env now today calls ex).tools_called_count =
      ex.tools_called_count + calls.length := by
  induction calls with
  | nil => intro ex; simp [execSeq, expectedLog]
  | cons p rest ih =>
    intro ex
    rcases p with ⟨n, a⟩
    simp only [execSeq, expectedLog, List.length_cons]
    have h1 := execute_log_step env now today n a ex
    constructor
    · rw [(ih _).1, h1.1, h1.2, List.append_assoc]
      rfl
    · rw [(ih _).2, h1.2]
      omega

theorem expectedLog_proj (now : ℕ) (calls : List (String × Args)) : ∀ c : ℕ,
    (expectedLog now c calls).map (·.sequence) = seqList (c + 1) calls.length
    ∧ (expectedLog now c calls).map (·.tool) = calls.map (·.1)
    ∧ (expectedLog now c calls).map (·.arguments) = calls.map (·.2)
    ∧ (expectedLog now c calls).length = calls.length := by
  induction calls with
  | nil => intro c; simp [expectedLog, seqList]
  | cons p rest ih =>
    intro c
    rcases p with ⟨n, a⟩
    simp only [expectedLog, List.map_cons, List.length_cons, seqList]
    exact ⟨by rw [(ih (c + 1)).1], by rw [(ih (c + 1)).2.1],
      by rw [(ih (c + 1)).2.2.1], by rw [(ih (c + 1)).2.2.2]⟩

/-! ### C6 -/

/-- C6: audit-log completeness: every `execute` invocation appends exactly
one entry `{tool, arguments, timestamp, sequence}` to `tool_calls_log`
(with `sequence` the incremented counter), so after a sequence of `n`
invocations on a fresh executor the log has exactly `n` entries whose
`sequence` numbers are `1, …, n` and whose tools/arguments are the
invocations in order. -/
theorem audit_log_complete (env : DbEnv) (now : ℕ) (today : ℤ)
    (calls : List (String × Args)) (s : SessionState) (uid : Option String)
    (rid : String) :
    (∀ (name : String) (args : Args) (ex : ToolExecutor),
       (ex.execute env now today name args).2.tool_calls_log =
         ex.tool_calls_log ++ [⟨name, args, now, ex.tools_called_count + 1⟩])
    ∧ (execSeq env now today calls (ToolExecutor.init s uid rid)).tool_calls_log.length
        = calls.length
    ∧ (execSeq env now today calls (ToolExecutor.init s uid rid)).tool_calls_log.map
        (·.sequence) = seqList 1 calls.length
    ∧ (execSeq env now today calls (ToolExecutor.init s uid rid)).tool_calls_log.map
        (·.tool) = calls.map (·.1)
    ∧ (execSeq env now today calls (ToolExecutor.init s uid rid)).tool_calls_log.map
        (·.arguments) = calls.map (·.2) := by
  have hlog := (execSeq_log env now today calls (ToolExecutor.init s uid rid)).1
  have : (ToolExecutor.init s uid rid).tool_calls_log = [] := rfl
  rw [this, List.nil_append] at hlog
  have hcount : (ToolExecutor.init s uid rid).tools_called_count = 0 := rfl
  rw [hcount] at hlog
  have hproj := expectedLog_proj now calls 0
  refine ⟨fun name args ex => (execute_log_step env now today name args ex).1,
    ?_, ?_, ?_, ?_⟩
  · rw [hlog]; exact hproj.2.2.2
  · rw [hlog]; exact hproj.1
  · rw [hlog]; exact hproj.2.1
  · rw [hlog]; exact hproj.2.2.1

/-! ### Handler state lemmas and C5 -/

theorem simulate_scenario_state (args : Args) (s : SessionState) :
    (simulate_scenario args s).2 = s := by
  simp only [simulate_scenario]
  split_ifs <;> rfl

theorem get_past_decisions_state (env : DbEnv) (uid : Option String)
    (args : Args) (s : SessionState) :
    (get_past_decisions env uid args s).2 = s := by
  unfold get_past_decisions
  cases uid <;> cases env.pastDecisions <;> rfl

theorem complete_analysis_error_state (count : ℕ) (args : Args)
    (s : SessionState) :
    (complete_analysis count args s).1.hasErrorField = true →
    (complete_analysis count args s).2 = s := by
  simp only [complete_analysis]
  split_ifs <;> simp [ToolResult.hasErrorField]

theorem allocate_no_err (args : Args) (s : SessionState) :
    (allocate_to_bucket args s).1.hasErrorField = false := rfl

theorem suggest_advance_no_err (args : Args) (s : SessionState) :
    (suggest_advance args s).1.hasErrorField = false := rfl

theorem send_message_no_err (now : ℕ) (args : Args) (s : SessionState) :
    (send_message_to_user now args s).1.hasErrorField = false := rfl

theorem set_risk_no_err (args : Args) (s : SessionState) :
    (set_risk_score args s).1.hasErrorField = false := rfl

theorem save_decision_no_err (env : DbEnv) (now : ℕ) (uid : Option String)
    (args : Args) (s : SessionState) :
    (save_decision env now uid args s).1.hasErrorField = false := rfl

theorem create_alert_no_err (env : DbEnv) (now : ℕ) (args : Args)
    (s : SessionState) :
    (create_alert env now args s).1.hasErrorField = false := rfl

theorem persistent_update_no_err (env : DbEnv) (now : ℕ) (uid : Option String)
    (args : Args) (s : SessionState) :
    (update_bucket_balance_persistent env now uid args s).1.hasErrorField =
      false := rfl

theorem dispatch_error_state (env : DbEnv) (now : ℕ) (today : ℤ) (count : ℕ)
    (uid : Option String) (name : String) (args : Args) (s : SessionState) :
    (dispatch env now today count uid name args s).1.hasErrorField = true →
    (dispatch env now today count uid name args s).2 = s := by
  unfold dispatch
  by_cases H1 : name = "get_bucket_balances"
  · rw [if_pos H1]; intro _; rfl
  rw [if_neg H1]
  by_cases H2 : name = "get_upcoming_obligations"
  · rw [if_pos H2]; intro _; rfl
  rw [if_neg H2]
  by_cases H3 : name = "get_income_history"
  · rw [if_pos H3]; intro _; rfl
  rw [if_neg H3]
  by_cases H4 : name = "get_expense_history"
  · rw [if_pos H4]; intro _; rfl
  rw [if_neg H4]
  by_cases H5 : name = "allocate_to_bucket"
  · rw [if_pos H5]; intro herr
    rw [allocate_no_err] at herr
    exact Bool.noConfusion herr
  rw [if_neg H5]
  by_cases H6 : name = "calculate_shortfall"
  · rw [if_pos H6]; intro _; rfl
  rw [if_neg H6]
  by_cases H7 : name = "suggest_advance"
  · rw [if_pos H7]; intro herr
    rw [suggest_advance_no_err] at herr
    exact Bool.noConfusion herr
  rw [if_neg H7]
  by_cases H8 : name = "get_goals_progress"
  · rw [if_pos H8]; intro _; rfl
  rw [if_neg H8]
  by_cases H9 : name = "send_message_to_user"
  · rw [if_pos H9]; intro herr
    rw [send_message_no_err] at herr
    exact Bool.noConfusion herr
  rw [if_neg H9]
  by_cases H10 : name = "set_risk_score"
  · rw [if_pos H10]; intro herr
    rw [set_risk_no_err] at herr
    exact Bool.noConfusion herr
  rw [if_neg H10]
  by_cases H11 : name = "complete_analysis"
  · rw [if_pos H11]
    exact complete_analysis_error_state count args s
  rw [if_neg H11]
  by_cases H12 : name = "get_past_decisions"
  · rw [if_pos H12]; intro _
    exact get_past_decisions_state env uid args s
  rw [if_neg H12]
  by_cases H13 : name = "save_decision"
  · rw [if_pos H13]; intro herr
    rw [save_decision_no_err] at herr
    exact Bool.noConfusion herr
  rw [if_neg H13]
  by_cases H14 : name = "create_alert"
  · rw [if_pos H14]; intro herr
    rw [create_alert_no_err] at herr
    exact Bool.noConfusion herr
  rw [if_neg H14]
  by_cases H15 : name = "analyze_spending_pattern"
  · rw [if_pos H15]; intro _; rfl
  rw [if_neg H15]
  by_cases H16 : name = "calculate_goal_trajectory"
  · rw [if_pos H16]; intro _; rfl
  rw [if_neg H16]
  by_cases H17 : name = "simulate_scenario"
  · rw [if_pos H17]; intro _
    exact simulate_scenario_state args s
  rw [if_neg H17]
  by_cases H18 : name = "update_bucket_balance_persistent"
  · rw [if_pos H18]; intro herr
    rw [persistent_update_no_err] at herr
    exact Bool.noConfusion herr
  rw [if_neg H18]
  intro _; rfl

theorem dispatch_unknown (env : DbEnv) (now : ℕ) (today : ℤ) (count : ℕ)
    (uid : Option String) (name : String) (args : Args) (s : SessionState)
    (h : name ∉ knownTools) :
    (dispatch env now today count uid name args s).1 =
      .unknownTool ("Unknown tool: " ++ name) := by
  simp only [knownTools, List.mem_cons, List.not_mem_nil, or_false] at h
  push_neg at h
  obtain ⟨h1, h2, h3, h4, h5, h6, h7, h8, h9, h10, h11, h12, h13, h14, h15,
    h16, h17, h18⟩ := h
  unfold dispatch
  rw [if_neg h1, if_neg h2, if_neg h3, if_neg h4, if_neg h5, if_neg h6,
    if_neg h7, if_neg h8, if_neg h9, if_neg h10, if_neg h11, if_neg h12,
    if_neg h13, if_neg h14, if_neg h15, if_neg h16, if_neg h17, if_neg h18]

/-- C5: `ToolExecutor.execute` is total and error-atomic: it is a function
returning a result for every tool name and arguments (in particular an
unrecognized name yields `{error: "Unknown tool: <name>"}`), and whenever
the returned result carries an `error` field the session state is left
unchanged by the call. -/
theorem execute_total_error_atomic (env : DbEnv) (now : ℕ) (today : ℤ)
    (name : String) (args : Args) (ex : ToolExecutor) :
    (name ∉ knownTools →
      (ex.execute env now today name args).1 =
        .unknownTool ("Unknown tool: " ++ name))
    ∧ ((ex.execute env now today name args).1.hasErrorField = true →
      (ex.execute env now today name args).2.state = ex.state) := by
  have hres : (ex.execute env now today name args).1 =
      (dispatch env now today (ex.tools_called_count + 1) ex.user_id name args
        ex.state).1 := rfl
  have hstate : (ex.execute env now today name args).2.state =
      (dispatch env now today (ex.tools_called_count + 1) ex.user_id name args
        ex.state).2 := rfl
  constructor
  · intro h
    rw [hres]
    exact dispatch_unknown env now today _ ex.user_id name args ex.state h
  · intro herr
    rw [hres] at herr
    rw [hstate]
    exact dispatch_error_state env now today _ ex.user_id name args
      ex.state herr

/-- C5 witness: a concrete unrecognized tool name produces the
`Unknown tool` error object and leaves the session state untouched. -/
theorem execute_total_error_atomic_witness :
    ((ToolExecutor.init {} none "").execute {} 0 0 "frobnicate" {}).1 =
      .unknownTool "Unknown tool: frobnicate"
    ∧ ((ToolExecutor.init {} none "").execute {} 0 0 "frobnicate" {}).2.state =
      ({} : SessionState) := by
  have h := execute_total_error_atomic {} 0 0 "frobnicate" {}
    (ToolExecutor.init {} none "")
  have h1 := h.1 (by decide)
  refine ⟨h1, ?_⟩
  have h2 := h.2 (by rw [h1]; rfl)
  exact h2.trans rfl

/-! ### C2 -/

theorem reactLoop_iteration_le (oracle : ℕ → OracleResponse) (env : DbEnv)
    (now : ℕ) (today : ℤ) : ∀ (fuel : ℕ) (st : LoopSt),
    (reactLoop oracle env now today fuel st).iteration ≤ st.iteration + fuel := by
  intro fuel
  induction fuel with
  | zero => intro st; simp [reactLoop]
  | succ n ih =>
    intro st
    simp only [reactLoop]
    by_cases hc : st.analysis_complete = true
    · rw [if_pos hc]; omega
    rw [if_neg hc]
    cases oracle (st.iteration + 1) with
    | failure err =>
      dsimp only
      omega
    | message content tool_calls =>
      dsimp only
      by_cases hempty : tool_calls.isEmpty = true
      · rw [if_pos hempty]
        by_cases hmin : ¬st.analysis_complete = true ∧
            st.tool_call_count < reactMinToolCalls
        · rw [if_pos hmin]
          refine le_trans (ih _) ?_
          dsimp only
          omega
        · rw [if_neg hmin]
          dsimp only
          omega
      · rw [if_neg hempty]
        cases (execBatch env now today tool_calls st.ex st.tool_call_count
            st.analysis_complete).2.2.2 with
        | some err =>
          dsimp only
          omega
        | none =>
          refine le_trans (ih _) ?_
          dsimp only
          omega

/-- C2: for every sequence of oracle responses — including ones that
request tool calls on every turn, ones whose requested calls carry
malformed arguments (raising in `json.loads`), and ones where the oracle
call itself raises — `ReActAgent.run` executes at most
`max_iterations = 15` loop iterations and (being a total function that
catches every modelled exception) returns the possibly partial state. -/
theorem react_run_terminates (oracle : ℕ → OracleResponse) (env : DbEnv)
    (now : ℕ) (today : ℤ) (state : SessionState) (user_id : Option String)
    (run_id : String) :
    (reactRun oracle env now today state user_id run_id).react_iterations ≤
      reactMaxIterations := by
  have h := reactLoop_iteration_le oracle env now today reactMaxIterations
    { ex := ToolExecutor.init state user_id run_id, iteration := 0,
      tool_call_count := 0, analysis_complete := false, reasoning_chain := [] }
  simp only [reactRun]
  split_ifs <;> simpa using h

/-! ### C7 -/

/-- C7: debate graceful degradation: if every debate-phase oracle call
raises (all three advisor calls and the synthesis call), the run does not
crash (the phase is a total function) and the debate result's
`final_recommendation` is exactly the original pre-debate recommendation,
so the state's `recommended_action` after the debate phase is the
original recommendation unchanged. -/
theorem debate_degrades_to_original (advOracle : String → Option Perspective)
    (synthOracle : List Perspective → Option SynthesisJson) (r : String)
    (state : SessionState)
    (hadv : ∀ name, advOracle name = none)
    (hsynth : ∀ ps, synthOracle ps = none)
    (hr : r ≠ "") :
    (runDebate advOracle synthOracle r).final_recommendation = some r
    ∧ (applyDebatePhase advOracle synthOracle (some r) state).recommended_action
        = some r := by
  have hdeb : (runDebate advOracle synthOracle r).final_recommendation
      = some r := by
    simp [runDebate, synthesizeDebate, hsynth]
  refine ⟨hdeb, ?_⟩
  simp only [applyDebatePhase, hr, if_neg hr]
  rw [hdeb]
  simp [hr]

/-- C7 witness: with oracles that always raise and a concrete non-empty
recommendation, the debate echoes the recommendation and the state keeps
it as the recommended action. -/
theorem debate_degrades_to_original_witness :
    ((∀ name, (fun (_ : String) => (none : Option Perspective)) name = none)
      ∧ (∀ ps, (fun (_ : List Perspective) => (none : Option SynthesisJson)) ps = none)
      ∧ ("Allocate 500 to emergency" : String) ≠ "")
    ∧ (runDebate (fun _ => none) (fun _ => none)
        "Allocate 500 to emergency").final_recommendation =
        some "Allocate 500 to emergency"
    ∧ (applyDebatePhase (fun _ => none) (fun _ => none)
        (some "Allocate 500 to emergency") {}).recommended_action =
        some "Allocate 500 to emergency" := by
  have h := debate_degrades_to_original (fun _ => none) (fun _ => none)
    "Allocate 500 to emergency" {} (fun _ => rfl) (fun _ => rfl) (by decide)
  exact ⟨⟨fun _ => rfl, fun _ => rfl, by decide⟩, h.1, h.2⟩

/-! ### C1 -/

/-- C1 counterexample: the claim fails on the code in two ways.  (a) When
`complete_analysis` is the very first tool call of a run, the returned
error object reports `tools_called: 1`, not `0` (the counter is
incremented before dispatch, so it already counts the `complete_analysis`
call itself).  (b) After only 4 other tool calls — fewer than the
claimed minimum of 5 — `complete_analysis` does not return an error: it
succeeds and sets `analysis_complete`, because the gate compares the
post-increment counter (4 + 1 = 5) against 5. -/
theorem complete_analysis_gate_cex :
    ((ToolExecutor.init {} none "").execute {} 0 0 "complete_analysis"
        {}).1.toolsCalledField = some 1
    ∧ ¬((ToolExecutor.init {} none "").execute {} 0 0 "complete_analysis"
        {}).1.toolsCalledField = some 0
    ∧ ((execSeq {} 0 0 [("get_bucket_balances", {}),
          ("get_upcoming_obligations", {}), ("get_income_history", {}),
          ("get_expense_history", {})] (ToolExecutor.init {} none "")).execute
          {} 0 0 "complete_analysis"
          { safe_to_spend := some 100,
            key_insight := some "Rent of eight thousand is due in five days, save two thousand now",
            recommended_action := some "Drive two extra hours tomorrow",
            confidence_score := some 80 }).1.hasErrorField = false
    ∧ ((execSeq {} 0 0 [("get_bucket_balances", {}),
          ("get_upcoming_obligations", {}), ("get_income_history", {}),
          ("get_expense_history", {})] (ToolExecutor.init {} none "")).execute
          {} 0 0 "complete_analysis"
          { safe_to_spend := some 100,
            key_insight := some "Rent of eight thousand is due in five days, save two thousand now",
            recommended_action := some "Drive two extra hours tomorrow",
            confidence_score := some 80 }).2.state.analysis_complete = true := by
  refine ⟨rfl, ?_, rfl, rfl⟩
  intro h
  exact Option.noConfusion h (fun h1 => Nat.noConfusion h1)

/-- C1 (amended): calling `complete_analysis` while the post-increment
call counter is below 5 — that is, with at most 3 other tool calls made
earlier in the run — returns the `{error, tools_called, suggestion}`
refusal, where `tools_called` is the counter including the
`complete_analysis` call itself (so `1` when it is the very first call),
and leaves the session state, in particular `analysis_complete`,
unchanged. -/
theorem complete_analysis_gate (env : DbEnv) (now : ℕ) (today : ℤ)
    (args : Args) (ex : ToolExecutor)
    (h : ex.tools_called_count + 1 < 5) :
    (ex.execute env now today "complete_analysis" args).1 =
      .completeRefused
        ("NOT ENOUGH ANALYSIS! You have only called " ++
          toString (ex.tools_called_count + 1) ++
          " tools. Call at least 5 tools (get balances, obligations, income, expenses, and more) before completing. Keep analyzing!")
        (ex.tools_called_count + 1)
        "Call get_bucket_balances, get_upcoming_obligations, get_income_history, get_expense_history, analyze_spending_pattern, calculate_shortfall first"
    ∧ (ex.execute env now today "complete_analysis" args).2.state = ex.state := by
  have hres : (ex.execute env now today "complete_analysis" args).1 =
      (dispatch env now today (ex.tools_called_count + 1) ex.user_id
        "complete_analysis" args ex.state).1 := rfl
  have hstate : (ex.execute env now today "complete_analysis" args).2.state =
      (dispatch env now today (ex.tools_called_count + 1) ex.user_id
        "complete_analysis" args ex.state).2 := rfl
  constructor
  · rw [hres]
    simp [dispatch, complete_analysis, h]
  · rw [hstate]
    simp [dispatch, complete_analysis, h]

/-- C1 witness: on a fresh executor the hypothesis holds (counter 0, so
0 + 1 < 5) and the first `complete_analysis` call is refused with
`tools_called = 1` and an unchanged state. -/
theorem complete_analysis_gate_witness :
    (ToolExecutor.init {} none "").tools_called_count + 1 < 5
    ∧ ((ToolExecutor.init {} none "").execute {} 0 0 "complete_analysis"
        {}).1.toolsCalledField = some 1
    ∧ ((ToolExecutor.init {} none "").execute {} 0 0 "complete_analysis"
        {}).2.state = ({} : SessionState) := by
  have h := complete_analysis_gate {} 0 0 {} (ToolExecutor.init {} none "")
    (by decide)
  refine ⟨by decide, ?_, ?_⟩
  · rw [h.1]
    rfl
  · exact h.2.trans rfl

/-! ### C4 -/

/-- C4: when the persistence write in `update_bucket_balance_persistent`
fails (the bucket collaborator raises, or finds no bucket record), the
in-memory bucket balance is still increased by the requested amount, the
result reports `success: true` and `persisted_to_db: false`, and (the
handler being a total function) no exception reaches the caller. -/
theorem persistent_update_isolation (env : DbEnv) (now : ℕ) (today : ℤ)
    (args : Args) (ex : ToolExecutor)
    (h : env.persistBucket ≠ .found) :
    (ex.execute env now today "update_bucket_balance_persistent" args).1 =
      .persistentUpdate true args.bucket_name
        (dGet ex.state.bucket_balances args.bucket_name 0)
        (args.amount.getD 0)
        (dGet ex.state.bucket_balances args.bucket_name 0 + args.amount.getD 0)
        false (args.reason.getD "")
    ∧ dGet (ex.execute env now today "update_bucket_balance_persistent"
          args).2.state.bucket_balances args.bucket_name 0 =
        dGet ex.state.bucket_balances args.bucket_name 0 +
          args.amount.getD 0 := by
  have hres : (ex.execute env now today "update_bucket_balance_persistent"
      args).1 =
      (dispatch env now today (ex.tools_called_count + 1) ex.user_id
        "update_bucket_balance_persistent" args ex.state).1 := rfl
  have hstate : (ex.execute env now today "update_bucket_balance_persistent"
      args).2.state =
      (dispatch env now today (ex.tools_called_count + 1) ex.user_id
        "update_bucket_balance_persistent" args ex.state).2 := rfl
  constructor
  · rw [hres]
    simp [dispatch, update_bucket_balance_persistent, h]
  · rw [hstate]
    simp [dispatch, update_bucket_balance_persistent, dGet_dSet_self]

/-- C4 witness: with the collaborator reporting no bucket record, a
concrete `update_bucket_balance_persistent` call adds 200 to the
(previously absent, hence 0-valued) `emergency` bucket in memory and
reports `persisted_to_db: false`. -/
theorem persistent_update_isolation_witness :
    ({} : DbEnv).persistBucket ≠ PersistOutcome.found
    ∧ ((ToolExecutor.init {} none "").execute {} 0 0
        "update_bucket_balance_persistent"
        { bucket_name := some "emergency", amount := some 200,
          reason := some "topup" }).1 =
      .persistentUpdate true (some "emergency")
        (dGet (({} : SessionState)).bucket_balances (some "emergency") 0)
        ((200 : Amount))
        (dGet (({} : SessionState)).bucket_balances (some "emergency") 0 + 200)
        false "topup"
    ∧ dGet ((ToolExecutor.init {} none "").execute {} 0 0
        "update_bucket_balance_persistent"
        { bucket_name := some "emergency", amount := some 200,
          reason := some "topup" }).2.state.bucket_balances
        (some "emergency") 0 =
      dGet (({} : SessionState)).bucket_balances (some "emergency") 0 + 200 := by
  have h := persistent_update_isolation {} 0 0
    { bucket_name := some "emergency", amount := some 200,
      reason := some "topup" } (ToolExecutor.init {} none "") (by decide)
  exact ⟨by decide, h.1, h.2⟩

/-! ### Spending-scan lemmas for C8 -/

theorem spendStep_cur_get (category : String) (cd today : ℤ) (acc : SpendAcc)
    (e : Expense) (c : String) :
    dGet (spendStep category cd today acc e).current_by_cat c 0 =
      dGet acc.current_by_cat c 0 +
        (if contributesCurrent category cd today c e then e.amount.getD 0
         else 0) := by
  unfold spendStep contributesCurrent
  cases h : expDaysAgo today e.date with
  | none => simp
  | some days_ago =>
    by_cases hskip : category ≠ "all" ∧ e.category.getD "other" ≠ category
    · simp [hskip]
    · simp only [if_neg hskip]
      by_cases hcur : days_ago < cd
      · simp only [if_pos hcur]
        by_cases hc : e.category.getD "other" = c
        · rw [hc]
          rw [dGet_dSet_self]
          have hcond : category = "all" ∨ c = category := by
            rcases not_and_or.mp hskip with h1 | h2
            · exact Or.inl (not_not.mp h1)
            · have h3 := not_not.mp h2
              rw [hc] at h3
              exact Or.inr h3
          simp [hskip, hc, hcur, hcond]
        · rw [dGet_dSet_ne _ _ _ _ _ hc]
          simp [hskip, hc, hcur]
      · simp only [if_neg hcur]
        by_cases hcomp : days_ago < cd * 2
        · simp [hcomp, hcur]
        · simp [hcomp, hcur]

theorem spendStep_comp_get (category : String) (cd today : ℤ) (acc : SpendAcc)
    (e : Expense) (c : String) :
    dGet (spendStep category cd today acc e).comparison_by_cat c 0 =
      dGet acc.comparison_by_cat c 0 +
        (if contributesPrevious category cd today c e then e.amount.getD 0
         else 0) := by
  unfold spendStep contributesPrevious
  cases h : expDaysAgo today e.date with
  | none => simp
  | some days_ago =>
    by_cases hskip : category ≠ "all" ∧ e.category.getD "other" ≠ category
    · simp [hskip]
    · simp only [if_neg hskip]
      by_cases hcur : days_ago < cd
      · simp [hcur, hskip]
      · simp only [if_neg hcur]
        by_cases hcomp : days_ago < cd * 2
        · simp only [if_pos hcomp]
          by_cases hc : e.category.getD "other" = c
          · rw [hc]
            rw [dGet_dSet_self]
            have hcond : category = "all" ∨ c = category := by
              rcases not_and_or.mp hskip with h1 | h2
              · exact Or.inl (not_not.mp h1)
              · have h3 := not_not.mp h2
                rw [hc] at h3
                exact Or.inr h3
            simp [hskip, hc, hcur, hcomp, hcond]
          · rw [dGet_dSet_ne _ _ _ _ _ hc]
            simp [hskip, hc, hcur, hcomp]
        · simp [hcomp, hcur]

theorem spendStep_cur_has (category : String) (cd today : ℤ) (acc : SpendAcc)
    (e : Expense) (c : String) :
    dHas (spendStep category cd today acc e).current_by_cat c =
      (dHas acc.current_by_cat c ||
        contributesCurrent category cd today c e) := by
  unfold spendStep contributesCurrent
  cases h : expDaysAgo today e.date with
  | none => simp
  | some days_ago =>
    by_cases hskip : category ≠ "all" ∧ e.category.getD "other" ≠ category
    · simp [hskip]
    · simp only [if_neg hskip]
      by_cases hcur : days_ago < cd
      · simp only [if_pos hcur]
        rw [dHas_dSet]
        by_cases hc : e.category.getD "other" = c
        · have hcond : category = "all" ∨ c = category := by
            rcases not_and_or.mp hskip with h1 | h2
            · exact Or.inl (not_not.mp h1)
            · have h3 := not_not.mp h2
              rw [hc] at h3
              exact Or.inr h3
          simp [hskip, hc, hcur, hcond]
        · simp [hskip, hc, hcur]
      · simp only [if_neg hcur]
        by_cases hcomp : days_ago < cd * 2
        · simp [hcomp, hcur]
        · simp [hcomp, hcur]

theorem spendStep_cur_nodup (category : String) (cd today : ℤ) (acc : SpendAcc)
    (e : Expense) (h : (dKeys acc.current_by_cat).Nodup) :
    (dKeys (spendStep category cd today acc e).current_by_cat).Nodup := by
  unfold spendStep
  cases expDaysAgo today e.date with
  | none => exact h
  | some days_ago =>
    by_cases hskip : category ≠ "all" ∧ e.category.getD "other" ≠ category
    · simp only [if_pos hskip]; exact h
    · simp only [if_neg hskip]
      by_cases hcur : days_ago < cd
      · simp only [if_pos hcur]
        exact dKeys_dSet_nodup _ _ _ h
      · simp only [if_neg hcur]
        by_cases hcomp : days_ago < cd * 2
        · simp only [if_pos hcomp]; exact h
        · simp only [if_neg hcomp]; exact h

theorem spendScan_cur_get (category : String) (cd today : ℤ)
    (hist : List Expense) : ∀ (acc : SpendAcc) (c : String),
    dGet (hist.foldl (spendStep category cd today) acc).current_by_cat c 0 =
      dGet acc.current_by_cat c 0 +
        currentSpend category cd today c hist := by
  induction hist with
  | nil => intro acc c; simp [currentSpend]
  | cons e t ih =>
    intro acc c
    simp only [List.foldl_cons]
    rw [ih, spendStep_cur_get]
    unfold currentSpend
    simp only [List.filter_cons]
    by_cases hf : contributesCurrent category cd today c e
    · simp only [if_pos hf, List.map_cons, List.sum_cons]
      ring
    · simp only [if_neg hf]
      ring

theorem spendScan_comp_get (category : String) (cd today : ℤ)
    (hist : List Expense) : ∀ (acc : SpendAcc) (c : String),
    dGet (hist.foldl (spendStep category cd today) acc).comparison_by_cat c 0 =
      dGet acc.comparison_by_cat c 0 +
        previousSpend category cd today c hist := by
  induction hist with
  | nil => intro acc c; simp [previousSpend]
  | cons e t ih =>
    intro acc c
    simp only [List.foldl_cons]
    rw [ih, spendStep_comp_get]
    unfold previousSpend
    simp only [List.filter_cons]
    by_cases hf : contributesPrevious category cd today c e
    · simp only [if_pos hf, List.map_cons, List.sum_cons]
      ring
    · simp only [if_neg hf]
      ring

theorem spendScan_cur_has (category : String) (cd today : ℤ)
    (hist : List Expense) : ∀ (acc : SpendAcc) (c : String),
    dHas (hist.foldl (spendStep category cd today) acc).current_by_cat c =
      (dHas acc.current_by_cat c ||
        hist.any (contributesCurrent category cd today c)) := by
  induction hist with
  | nil => intro acc c; simp
  | cons e t ih =>
    intro acc c
    simp only [List.foldl_cons, List.any_cons]
    rw [ih, spendStep_cur_has, Bool.or_assoc]

theorem spendScan_cur_nodup (category : String) (cd today : ℤ)
    (hist : List Expense) : ∀ (acc : SpendAcc),
    (dKeys acc.current_by_cat).Nodup →
    (dKeys (hist.foldl (spendStep category cd today) acc).current_by_cat).Nodup := by
  induction hist with
  | nil => intro acc h; exact h
  | cons e t ih =>
    intro acc h
    simp only [List.foldl_cons]
    exact ih _ (spendStep_cur_nodup category cd today acc e h)

/-! ### C8 -/

/-- C8: `analyze_spending_pattern` flags a category as an anomaly exactly
when its prior-period spend is positive and its current-period spend
exceeds 1.5 times the prior-period spend; concretely, prior ₹1000 and
current ₹1600 is flagged with `increase_pct = 60`, while current ₹1300
(a 30% increase) is not flagged. -/
theorem spending_anomaly_criterion :
    (∀ (today : ℤ) (args : Args) (s : SessionState),
      (analyze_spending_pattern today args s).1.anomaliesField =
        some (spendAnomalies (spendScan (args.category.getD "all")
          (args.comparison_days.getD 7) today s.expense_history)))
    ∧ (∀ (category : String) (cd today : ℤ) (hist : List Expense) (c : String),
        c ∈ (spendAnomalies (spendScan category cd today hist)).map (·.category)
          ↔ previousSpend category cd today c hist > 0 ∧
            currentSpend category cd today c hist >
              previousSpend category cd today c hist * (3/2))
    ∧ (analyze_spending_pattern 100 { category := some "food" }
        { expense_history :=
            [{ category := some "food", amount := some 1600, date := .dt 100 },
             { category := some "food", amount := some 1000, date := .dt 93 }] }).1.anomaliesField
        = some [{ category := "food", current := 1600, previous := 1000,
                  increase_pct := 60 }]
    ∧ (analyze_spending_pattern 100 { category := some "food" }
        { expense_history :=
            [{ category := some "food", amount := some 1300, date := .dt 100 },
             { category := some "food", amount := some 1000, date := .dt 93 }] }).1.anomaliesField
        = some [] := by
  refine ⟨fun today args s => rfl, ?_, ?_, ?_⟩
  · intro category cd today hist c
    have hcurv : dGet (spendScan category cd today hist).current_by_cat c 0 =
        currentSpend category cd today c hist := by
      have h := spendScan_cur_get category cd today hist {} c
      simpa [spendScan, dGet] using h
    have hcompv : dGet (spendScan category cd today hist).comparison_by_cat c 0 =
        previousSpend category cd today c hist := by
      have h := spendScan_comp_get category cd today hist {} c
      simpa [spendScan, dGet] using h
    have hnodup : (dKeys (spendScan category cd today hist).current_by_cat).Nodup := by
      have h := spendScan_cur_nodup category cd today hist {} (by simp [dKeys])
      simpa [spendScan] using h
    have hhasv : dHas (spendScan category cd today hist).current_by_cat c =
        hist.any (contributesCurrent category cd today c) := by
      have h := spendScan_cur_has category cd today hist {} c
      simpa [spendScan, dHas] using h
    constructor
    · intro hmem
      rcases List.mem_map.mp hmem with ⟨a, ha, hac⟩
      rcases List.mem_filterMap.mp ha with ⟨p, hp, hpa⟩
      simp only [spendAnomalies] at hpa
      by_cases hcond :
          dGet (spendScan category cd today hist).comparison_by_cat p.1 0 > 0 ∧
          p.2 > dGet (spendScan category cd today hist).comparison_by_cat p.1 0 * (3/2)
      · rw [if_pos hcond] at hpa
        have ha2 := Option.some.inj hpa
        have hpc : p.1 = c := by rw [← hac, ← ha2]
        have hpv : p.2 = dGet (spendScan category cd today hist).current_by_cat c 0 := by
          have : (c, p.2) ∈ (spendScan category cd today hist).current_by_cat := by
            rw [← hpc]
            simpa using hp
          exact (dGet_of_mem _ c p.2 0 hnodup this).symm
        rw [hpc] at hcond
        rw [hpv, hcurv, hcompv] at hcond
        exact ⟨hcond.1, hcond.2⟩
      · rw [if_neg hcond] at hpa
        exact Option.noConfusion hpa
    · rintro ⟨hprev, hcur2⟩
      have hpos : currentSpend category cd today c hist > 0 := by
        have h32 : previousSpend category cd today c hist * (3/2) > 0 := by
          have : (0:ℚ) < 3/2 := by norm_num
          exact mul_pos hprev this
        linarith
      have hany : hist.any (contributesCurrent category cd today c) = true := by
        by_contra hna
        have hany0 : hist.any (contributesCurrent category cd today c) = false :=
          Bool.eq_false_iff.mpr hna
        have hnil : hist.filter (contributesCurrent category cd today c) = [] := by
          rw [List.filter_eq_nil]
          intro e he
          have := List.any_eq_false.mp hany0 e he
          simpa using this
        have hz : currentSpend category cd today c hist = 0 := by
          unfold currentSpend
          rw [hnil]
          simp
        rw [hz] at hpos
        exact absurd hpos (by norm_num)
      have hhas2 : dHas (spendScan category cd today hist).current_by_cat c = true := by
        rw [hhasv, hany]
      have hmem2 := mem_of_dHas _ c 0 hhas2
      refine List.mem_map.mpr ⟨⟨c, dGet (spendScan category cd today hist).current_by_cat c 0,
        dGet (spendScan category cd today hist).comparison_by_cat c 0,
        pyRound ((dGet (spendScan category cd today hist).current_by_cat c 0 -
          dGet (spendScan category cd today hist).comparison_by_cat c 0) /
          dGet (spendScan category cd today hist).comparison_by_cat c 0 * 100)⟩,
        ?_, rfl⟩
      refine List.mem_filterMap.mpr ⟨(c, dGet (spendScan category cd today hist).current_by_cat c 0),
        hmem2, ?_⟩
      simp only [spendAnomalies]
      rw [if_pos]
      rw [hcompv, hcurv]
      exact ⟨hprev, hcur2⟩
  · norm_num [analyze_spending_pattern, spendScan, spendStep, expDaysAgo,
      dGet, dSet, spendAnomalies, pyRound, ToolResult.anomaliesField,
      List.filterMap_cons, List.filterMap_nil]
  · norm_num [analyze_spending_pattern, spendScan, spendStep, expDaysAgo,
      dGet, dSet, spendAnomalies, pyRound, ToolResult.anomaliesField,
      List.filterMap_cons, List.filterMap_nil]

/-! ### C9 -/

/-- C9 counterexample: the claim's "on track when the required rate is
`≤` 30% of average daily income" fails at the boundary: a goal needing
exactly ₹240/day against an average daily income of ₹800 (30% of which
is ₹240) is reported `on_track = false`, because the code compares with
strict `<`. -/
theorem goal_trajectory_on_track_cex :
    requiredDailyRate 0
        { name := some "tv", target_amount := some 7200,
          current_amount := some 0, target_date := none } ≤
      (800 : ℚ) * (3/10)
    ∧ (goalTrajectoryOne 0 { weekday_average := some 800 }
        { name := some "tv", target_amount := some 7200,
          current_amount := some 0, target_date := none }).on_track = false
    ∧ ((calculate_goal_trajectory 0 { goal_name := some "all" }
        { goals := [{ name := some "tv", target_amount := some 7200,
                      current_amount := some 0, target_date := none }],
          income_patterns := { weekday_average := some 800 } }).1.trajectoriesField.map
        (fun l => l.map (·.on_track))) = some [false] := by
  refine ⟨by norm_num [requiredDailyRate, daysRemaining], ?_, ?_⟩
  · norm_num [goalTrajectoryOne, requiredDailyRate, daysRemaining]
  · norm_num [calculate_goal_trajectory, goalTrajectoryOne, requiredDailyRate,
      daysRemaining, ToolResult.trajectoriesField]

/-- C9 (amended): `calculate_goal_trajectory` computes the required daily
savings rate as `(target − current) / max(days remaining, 1)` and flags a
goal `on_track` exactly when that rate is strictly less than 30% of the
average daily income; for target ₹15000, current ₹4500, target date 45
days out and average daily income ₹800 the rate is 10500/45 = ₹233.33,
strictly below the ₹240 threshold, so `on_track = true`. -/
theorem goal_trajectory_on_track :
    (∀ (today : ℤ) (patterns : IncomePatterns) (g : Goal),
      (goalTrajectoryOne today patterns g).on_track = true ↔
        requiredDailyRate today g <
          (patterns.weekday_average.getD 500) * (3/10))
    ∧ (∀ (today : ℤ) (patterns : IncomePatterns) (g : Goal),
      (goalTrajectoryOne today patterns g).daily_savings_needed =
        pyRound (requiredDailyRate today g))
    ∧ requiredDailyRate 0
        { name := some "bike", target_amount := some 15000,
          current_amount := some 4500, target_date := some 45 } = 700/3
    ∧ ((700 : ℚ)/3) < 800 * (3/10)
    ∧ ((calculate_goal_trajectory 0 { goal_name := some "all" }
        { goals := [{ name := some "bike", target_amount := some 15000,
                      current_amount := some 4500, target_date := some 45 }],
          income_patterns := { weekday_average := some 800 } }).1.trajectoriesField.map
        (fun l => l.map (·.on_track))) = some [true] := by
  refine ⟨?_, fun today patterns g => rfl, ?_, by norm_num, ?_⟩
  · intro today patterns g
    simp [goalTrajectoryOne, decide_eq_true_eq]
  · norm_num [requiredDailyRate, daysRemaining]
  · norm_num [calculate_goal_trajectory, goalTrajectoryOne, requiredDailyRate,
      daysRemaining, ToolResult.trajectoriesField]

/-! ### C10 and C3 -/

/-- C10: `allocate_to_bucket` performs no argument validation: for every
bucket name (any string, or even a missing one) and every amount
(including zero and negative), it returns a `success: true` result with
no error field, and sets the bucket's in-memory balance to its previous
value plus the amount (creating the bucket implicitly when absent, since
the previous value then reads as 0). -/
theorem allocate_to_bucket_unvalidated (args : Args) (s : SessionState) :
    (allocate_to_bucket args s).1 =
      .allocated true args.bucket_name
        (dGet s.bucket_balances args.bucket_name 0 + args.amount.getD 0)
        (args.amount.getD 0)
    ∧ dGet (allocate_to_bucket args s).2.bucket_balances args.bucket_name 0 =
        dGet s.bucket_balances args.bucket_name 0 + args.amount.getD 0
    ∧ (allocate_to_bucket args s).1.hasErrorField = false := by
  refine ⟨rfl, ?_, rfl⟩
  simp [allocate_to_bucket, dGet_dSet_self]

/-- C3: read-your-writes within one run: after executing
`allocate_to_bucket(b, a)` on a `ToolExecutor`, executing
`get_bucket_balances` on the same executor returns a bucket map in which
`b`'s balance is its previous balance plus `a`. -/
theorem bucket_read_your_writes (env env2 : DbEnv) (now1 now2 : ℕ)
    (today1 today2 : ℤ) (b reason : String) (a : Amount) (ex : ToolExecutor) :
    (((ex.execute env now1 today1 "allocate_to_bucket"
        { bucket_name := some b, amount := some a, reason := some reason }).2.execute
        env2 now2 today2 "get_bucket_balances" {}).1.bucketsField.map
      (fun m => dGet m (some b) 0)) =
      some (dGet ex.state.bucket_balances (some b) 0 + a) := by
  simp [ToolExecutor.execute, dispatch, allocate_to_bucket, get_bucket_balances,
    ToolResult.bucketsField, dGet_dSet_self]

end GMG
